import Mathlib

/-!
# Verification of the VM service layer (vmUtils)

Shallow embedding of the VM status/action/loader module of the PTNG
front end, together with proofs of its specified properties.

Modelling conventions:
* TypeScript string values are Lean `String`s.  The declared union type
  `VMStatus` is erased at runtime, so a `VirtualMachine.status` field is
  modelled as a plain `String` (unchecked casts such as
  `statusResponse.windows as VMStatus` can put arbitrary strings there).
* `String.prototype.toLowerCase()` is modelled by `jsToLowerCase`
  (ASCII case folding, which is what all statuses and OS names use).
* JavaScript `x || y` on strings is falsy on the empty string; it is
  modelled by `jsOrString`.
* Timestamps are modelled as epoch milliseconds (`Int`), i.e. the value
  of `Date.prototype.getTime()` after parsing.
* `Math.random()` draws are modelled as rationals supplied as inputs,
  one per call site, with the hypothesis `0 ≤ r ∧ r < 1` where needed.
* Remote calls (`vmService.*`) and thrown/rejected errors enter the
  model as explicit inputs (`Except`-valued responses); emitted toasts
  and performed remote calls are collected in the returned record, and
  exceptions escaping to the caller are the `.error` case of the result.
-/

/-- ASCII model of `String.prototype.toLowerCase()`. -/
def jsToLowerCase (s : String) : String := ⟨s.data.map Char.toLower⟩

/-- JavaScript `v || fallback` for an optional string value: `undefined`
and the empty string are falsy. -/
def jsOrString (v : Option String) (fallback : String) : String :=
  match v with
  | some s => if s = "" then fallback else s
  | none => fallback

/-- The six string values of the (erased) TypeScript union type
`VMStatus` from the source. -/
def vmStatusValues : List String :=
  ["Running", "Stopped", "Starting", "Stopping", "Paused", "Error"]

/-- Embedding of `normalizeVMStatus` (part_001 lines 173-184): lowercase
the input, compare against the five known labels, default to Error. -/
def normalizeVMStatus (status : String) : String :=
  let lowercaseStatus := jsToLowerCase status
  if lowercaseStatus = "running" then "Running"
  else if lowercaseStatus = "stopped" then "Stopped"
  else if lowercaseStatus = "starting" then "Starting"
  else if lowercaseStatus = "stopping" then "Stopping"
  else if lowercaseStatus = "paused" then "Paused"
  else "Error"

/-! ## Action dispatcher (`handleVMAction`, part_001 lines 71-111) -/

/-- Shape of a `vmService` action response: `message` and `URL` are
optional fields of the JSON body. -/
structure VMResponse where
  message : Option String
  URL : Option String
deriving DecidableEq

/-- A thrown/rejected error value: its own `message` and the optional
`error.response?.data?.message` chain used for toast descriptions. -/
structure ErrVal where
  message : String
  responseDataMessage : Option String
deriving DecidableEq

/-- A remote `vmService` operation together with its arguments. -/
inductive RemoteCall where
  | startVM (instanceOs employeeId : String)
  | stopVM (instanceOs employeeId : String)
  | restartVM (instanceOs employeeId : String)
deriving DecidableEq

/-- A toast notification: `isError` distinguishes `toast.error` from
plain `toast`; title and description as passed at the call site. -/
structure Toast where
  isError : Bool
  title : String
  description : String
deriving DecidableEq

/-- Observable outcome of `handleVMAction`: the remote calls performed
(in order), the toasts emitted, and the value returned to the caller
(`.error` = the exception re-thrown to the caller). -/
structure ActionResult where
  calls : List RemoteCall
  toasts : List Toast
  outcome : Except ErrVal VMResponse

/-- The `switch (action.toLowerCase())` of `handleVMAction`
(part_001 lines 75-91): which remote operation a given action string
selects, `none` for the default (unsupported) branch. -/
def dispatchCall (action instanceOs employeeId : String) : Option RemoteCall :=
  let a := jsToLowerCase action
  if a = "start" then some (.startVM instanceOs employeeId)
  else if a = "stop" then some (.stopVM instanceOs employeeId)
  else if a = "restart" then some (.restartVM instanceOs employeeId)
  else if a = "reset" then some (.restartVM instanceOs employeeId)
  else none

/-- Embedding of `handleVMAction` (part_001 lines 71-111).  `remote`
supplies the settled result of each awaited `vmService` call.  The
`default:` branch throws `Unsupported action: ...`, which the enclosing
catch turns into an error toast (a plain `Error` has no
`response.data.message`, so the generic fallback is used) and re-throws;
a failed remote call is likewise toasted and re-thrown; a successful
one is toasted and returned. -/
def handleVMAction (vmId action instanceOs employeeId : String)
    (remote : RemoteCall → Except ErrVal VMResponse) : ActionResult :=
  match dispatchCall action instanceOs employeeId with
  | none =>
      { calls := []
        toasts := [⟨true, "VM " ++ action ++ " Failed",
                    jsOrString none ("Failed to " ++ jsToLowerCase action ++ " VM.")⟩]
        outcome := .error ⟨"Unsupported action: " ++ action, none⟩ }
  | some c =>
      match remote c with
      | .ok response =>
          { calls := [c]
            toasts := [⟨false, "VM " ++ action ++ " initiated",
                        jsOrString response.message
                          ("The VM is now being " ++ jsToLowerCase action ++ "ed.")⟩]
            outcome := .ok response }
      | .error e =>
          { calls := [c]
            toasts := [⟨true, "VM " ++ action ++ " Failed",
                        jsOrString e.responseDataMessage
                          ("Failed to " ++ jsToLowerCase action ++ " VM.")⟩]
            outcome := .error e }

/-! ## API-to-domain mapper (`convertApiVMToAppFormat`, part_001 lines 132-170) -/

/-- Resource-utilization snapshot (`VMResources`, part_001 lines 7-12). -/
structure VMResources where
  cpu : Int
  memory : Int
  disk : Int
  network : Int
deriving DecidableEq

/-- Domain display model (`VirtualMachine`, part_001 lines 14-30).  The
`status` field is a plain string at runtime (see module comment). -/
structure VirtualMachine where
  id : String
  name : String
  status : String
  os : String
  assigned_user : String
  uptime : String
  health : String
  ip_address : String
  last_snapshot : Option String
  resources : VMResources
  user_name : Option String
  user_email : Option String
  guacamole_url : Option String
  instance_id : Option String
  created_at : Option String
deriving DecidableEq

/-- A raw API VM record as consumed by the mapper.  `updated_at` is the
parsed timestamp in epoch milliseconds (the value of
`new Date(apiVM.updated_at).getTime()`). -/
structure ApiVM where
  id : Nat
  instance_id : Option String
  instance_os : String
  employee_id : String
  status : String
  updated_at : Int
  user_name : Option String
  user_email : Option String
  guacamole_url : Option String
  created_at : Option String

/-- The four `Math.random()` draws consumed by one mapper call, in
source order (cpu, memory, disk, network); each lies in `[0, 1)`. -/
structure RandDraws where
  cpu : ℚ
  memory : ℚ
  disk : ℚ
  network : ℚ

/-- The uptime string `` `${hours}h ${minutes}m` `` computed from a
millisecond delta (part_001 lines 139-141): JavaScript `Math.floor(x/n)`
is flooring division and `%` is truncating remainder. -/
def jsUptimeString (uptimeMs : Int) : String :=
  let hours := Int.fdiv uptimeMs (1000 * 60 * 60)
  let minutes := Int.fdiv (Int.tmod uptimeMs (1000 * 60 * 60)) (1000 * 60)
  toString hours ++ "h " ++ toString minutes ++ "m"

/-- Embedding of `convertApiVMToAppFormat` (part_001 lines 132-170).
`now` is `new Date().getTime()`; `rand` supplies the `Math.random()`
draws (`Rat.floor` models `Math.floor` on the scaled draw). -/
def convertApiVMToAppFormat (now : Int) (rand : RandDraws) (apiVM : ApiVM) :
    VirtualMachine :=
  let uptimeMs : Int :=
    if jsToLowerCase apiVM.status = "running" then now - apiVM.updated_at else 0
  let uptime := jsUptimeString uptimeMs
  let isRunning := jsToLowerCase apiVM.status = "running"
  let normalizedStatus := normalizeVMStatus apiVM.status
  { id := jsOrString apiVM.instance_id ("vm-" ++ toString apiVM.id)
    name := apiVM.instance_os ++ " VM"
    status := normalizedStatus
    os := apiVM.instance_os
    assigned_user := apiVM.employee_id
    uptime := uptime
    health := "Good"
    ip_address := "10.0.0.15"
    last_snapshot := none
    resources :=
      { cpu := if isRunning then Rat.floor (rand.cpu * 60) + 20 else 0
        memory := if isRunning then Rat.floor (rand.memory * 50) + 30 else 0
        disk := Rat.floor (rand.disk * 40) + 10
        network := if isRunning then Rat.floor (rand.network * 40) + 5 else 0 }
    user_name := apiVM.user_name
    user_email := apiVM.user_email
    guacamole_url := apiVM.guacamole_url
    instance_id := apiVM.instance_id
    created_at := apiVM.created_at }

/-! ## VM loader (`loadUserVMs`, part_001 lines 187-243) and mock data -/

/-- First entry of `mockVMs` (part_001 lines 34-50). -/
def mockWindowsVM : VirtualMachine :=
  { id := "vm-001"
    name := "Windows Development"
    status := "Running"
    os := "Windows"
    assigned_user := "emp-001"
    uptime := "12h 45m"
    health := "Good"
    ip_address := "10.0.0.15"
    last_snapshot := some "2025-04-15 09:30"
    resources := ⟨45, 60, 30, 25⟩
    user_name := none
    user_email := none
    guacamole_url := none
    instance_id := none
    created_at := none }

/-- Second entry of `mockVMs` (part_001 lines 51-67). -/
def mockLinuxVM : VirtualMachine :=
  { id := "vm-002"
    name := "Linux Server"
    status := "Stopped"
    os := "Linux"
    assigned_user := "emp-002"
    uptime := "0h 0m"
    health := "Good"
    ip_address := "10.0.0.16"
    last_snapshot := some "2025-04-14 17:15"
    resources := ⟨0, 0, 15, 0⟩
    user_name := none
    user_email := none
    guacamole_url := none
    instance_id := none
    created_at := none }

/-- The initial contents of the module-level `mockVMs` array
(part_001 lines 33-68). -/
def mockVMs : List VirtualMachine := [mockWindowsVM, mockLinuxVM]

/-- Per-OS status response of `vmService.getVMStatus`. -/
structure StatusResponse where
  windows : String
  linux : String

/-- Settled result of `vmService.getAllVMs()`: a well-formed
`{vms: [...]}` body, any other (malformed) shape, or a rejection. -/
inductive AllVMsResponse where
  | wellFormed (vms : List ApiVM)
  | malformed
  | failure (e : ErrVal)

/-- Input of one `loadUserVMs` invocation: single-user mode carries the
employee id and the settled `getVMStatus` result; all-VMs mode carries
the settled `getAllVMs` result. -/
inductive LoadInput where
  | single (employeeId : String) (resp : Except ErrVal StatusResponse)
  | all (resp : AllVMsResponse)

/-- The callback of `mockVMs.map` in single-user mode (part_001 lines
196-216): overlay the per-OS status onto the entry (an in-place field
assignment with an unchecked cast), then zero cpu/memory/network and
reset uptime when the resulting status is exactly `"Stopped"`. -/
def overlayVM (statusResponse : StatusResponse) (vm : VirtualMachine) :
    VirtualMachine :=
  let vm :=
    if jsToLowerCase vm.os = "windows" then { vm with status := statusResponse.windows }
    else if jsToLowerCase vm.os = "linux" then { vm with status := statusResponse.linux }
    else vm
  if vm.status = "Stopped" then
    { vm with
        resources := { vm.resources with cpu := 0, memory := 0, network := 0 }
        uptime := "0h 0m" }
  else vm

/-- Embedding of `loadUserVMs` (part_001 lines 187-243).  `mockState`
is the current contents of the module-level `mockVMs` array; because
single-user mode mutates its elements in place and returns the same
array, the function yields both the value returned to the caller
(`Except`: `.error` would be an exception escaping to the caller) and
the new contents of `mockVMs`.  `rng` supplies the random draws for the
mapper, indexed by position in the mapped list.  Every branch of the
source returns normally (catch blocks toast and fall back), so no
`.error` result is ever produced. -/
def loadUserVMs (now : Int) (rng : Nat → RandDraws)
    (mockState : List VirtualMachine) :
    LoadInput → Except ErrVal (List VirtualMachine) × List VirtualMachine
  | .single _ (.ok statusResponse) =>
      let updated := mockState.map (overlayVM statusResponse)
      (.ok updated, updated)
  | .single _ (.error _) =>
      -- outer catch: toast the error, return mockVMs
      (.ok mockState, mockState)
  | .all (.wellFormed vms) =>
      (.ok (vms.mapIdx fun i vm => convertApiVMToAppFormat now (rng i) vm),
       mockState)
  | .all .malformed =>
      -- unexpected shape: toast, return mockVMs
      (.ok mockState, mockState)
  | .all (.failure _) =>
      -- inner catch: toast, return mockVMs
      (.ok mockState, mockState)

/-- Bridge between the executable `Rat.floor` used in the embedding and
Mathlib's `Int.floor`. -/
theorem ratFloor_eq_floor (q : ℚ) : Rat.floor q = ⌊q⌋ := by
  rw [Rat.floor_def, Rat.floor_def']

/-- For a draw `r ∈ [0,1)` and a positive scale `k`,
`Math.floor(r * k)` lies in `[0, k)`. -/
theorem jsRandomBand (r : ℚ) (k : ℤ) (hk : 0 < k) (h0 : 0 ≤ r) (h1 : r < 1) :
    0 ≤ Rat.floor (r * (k : ℚ)) ∧ Rat.floor (r * (k : ℚ)) < k := by
  rw [ratFloor_eq_floor]
  constructor
  · exact Int.le_floor.mpr (by exact_mod_cast mul_nonneg h0 (by exact_mod_cast hk.le))
  · refine Int.floor_lt.mpr ?_
    calc r * (k : ℚ) < 1 * (k : ℚ) :=
          mul_lt_mul_of_pos_right h1 (by exact_mod_cast hk)
      _ = (k : ℚ) := one_mul _

/-- C1: the status normalizer is total, always returns one of the six
VMStatus values, maps each of the five known labels (case-insensitively)
to its canonical form, and maps every other string to Error. -/
theorem normalizeVMStatus_spec (s : String) :
    normalizeVMStatus s ∈ vmStatusValues ∧
    (jsToLowerCase s = "running" → normalizeVMStatus s = "Running") ∧
    (jsToLowerCase s = "stopped" → normalizeVMStatus s = "Stopped") ∧
    (jsToLowerCase s = "starting" → normalizeVMStatus s = "Starting") ∧
    (jsToLowerCase s = "stopping" → normalizeVMStatus s = "Stopping") ∧
    (jsToLowerCase s = "paused" → normalizeVMStatus s = "Paused") ∧
    (jsToLowerCase s ∉ ["running", "stopped", "starting", "stopping", "paused"] →
      normalizeVMStatus s = "Error") := by
  unfold normalizeVMStatus vmStatusValues
  by_cases h1 : jsToLowerCase s = "running" <;>
  by_cases h2 : jsToLowerCase s = "stopped" <;>
  by_cases h3 : jsToLowerCase s = "starting" <;>
  by_cases h4 : jsToLowerCase s = "stopping" <;>
  by_cases h5 : jsToLowerCase s = "paused" <;>
  simp [h1, h2, h3, h4, h5]

/-- Witness for C1 at concrete inputs: "STOPPED" folds to a known label,
"unknown-state" and "" do not. -/
theorem normalizeVMStatus_spec_witness :
    (jsToLowerCase "STOPPED" = "stopped" ∧ normalizeVMStatus "STOPPED" = "Stopped") ∧
    (jsToLowerCase "unknown-state" ∉ ["running", "stopped", "starting", "stopping", "paused"] ∧
      normalizeVMStatus "unknown-state" = "Error") ∧
    (jsToLowerCase "" ∉ ["running", "stopped", "starting", "stopping", "paused"] ∧
      normalizeVMStatus "" = "Error") :=
  ⟨⟨by decide, (normalizeVMStatus_spec "STOPPED").2.2.1 (by decide)⟩,
   ⟨by decide, (normalizeVMStatus_spec "unknown-state").2.2.2.2.2.2 (by decide)⟩,
   ⟨by decide, (normalizeVMStatus_spec "").2.2.2.2.2.2 (by decide)⟩⟩

/-- C4: for every action string whose lowercase form is not one of
start/stop/restart/reset, `handleVMAction` performs no remote call and
fails with the `Unsupported action` error, which is surfaced (re-thrown)
to the caller. -/
theorem handleVMAction_unsupported (vmId action instanceOs employeeId : String)
    (remote : RemoteCall → Except ErrVal VMResponse)
    (h : jsToLowerCase action ∉ ["start", "stop", "restart", "reset"]) :
    (handleVMAction vmId action instanceOs employeeId remote).calls = [] ∧
    (handleVMAction vmId action instanceOs employeeId remote).outcome =
      .error ⟨"Unsupported action: " ++ action, none⟩ := by
  simp only [List.mem_cons, List.not_mem_nil, or_false, not_or] at h
  obtain ⟨h1, h2, h3, h4⟩ := h
  unfold handleVMAction dispatchCall
  simp [h1, h2, h3, h4]

/-- Witness for C4: dispatching the unsupported action "launch" performs
no remote call and fails with the unsupported-action error. -/
theorem handleVMAction_unsupported_witness :
    jsToLowerCase "launch" ∉ ["start", "stop", "restart", "reset"] ∧
    ((handleVMAction "vm-001" "launch" "Windows" "emp-001"
        (fun _ => .ok ⟨none, none⟩)).calls = [] ∧
     (handleVMAction "vm-001" "launch" "Windows" "emp-001"
        (fun _ => .ok ⟨none, none⟩)).outcome =
       .error ⟨"Unsupported action: launch", none⟩) :=
  ⟨by decide,
   handleVMAction_unsupported "vm-001" "launch" "Windows" "emp-001"
     (fun _ => .ok ⟨none, none⟩) (by decide)⟩

/-- C5: an action whose lowercase form is "reset" performs exactly the
same single remote call as the action "restart": one
`restartVM(instanceOs, employeeId)` call. -/
theorem handleVMAction_reset_aliases_restart
    (vmId action instanceOs employeeId : String)
    (remote : RemoteCall → Except ErrVal VMResponse)
    (h : jsToLowerCase action = "reset") :
    (handleVMAction vmId action instanceOs employeeId remote).calls =
      [RemoteCall.restartVM instanceOs employeeId] ∧
    (handleVMAction vmId "restart" instanceOs employeeId remote).calls =
      [RemoteCall.restartVM instanceOs employeeId] := by
  have hd : dispatchCall action instanceOs employeeId =
      some (RemoteCall.restartVM instanceOs employeeId) := by
    unfold dispatchCall
    simp [h]
  have hd2 : dispatchCall "restart" instanceOs employeeId =
      some (RemoteCall.restartVM instanceOs employeeId) := by
    have hlow : jsToLowerCase "restart" = "restart" := by decide
    unfold dispatchCall
    simp [hlow]
  constructor
  · unfold handleVMAction
    simp only [hd]
    cases remote (RemoteCall.restartVM instanceOs employeeId) <;> rfl
  · unfold handleVMAction
    simp only [hd2]
    cases remote (RemoteCall.restartVM instanceOs employeeId) <;> rfl

/-- Witness for C5: the casing variant "Reset" and the action "restart"
both perform exactly one `restartVM("Windows", "emp-001")` call. -/
theorem handleVMAction_reset_aliases_restart_witness :
    jsToLowerCase "Reset" = "reset" ∧
    ((handleVMAction "vm-001" "Reset" "Windows" "emp-001"
        (fun _ => .ok ⟨some "ok", none⟩)).calls =
       [RemoteCall.restartVM "Windows" "emp-001"] ∧
     (handleVMAction "vm-001" "restart" "Windows" "emp-001"
        (fun _ => .ok ⟨some "ok", none⟩)).calls =
       [RemoteCall.restartVM "Windows" "emp-001"]) :=
  ⟨by decide,
   handleVMAction_reset_aliases_restart "vm-001" "Reset" "Windows" "emp-001"
     (fun _ => .ok ⟨some "ok", none⟩) (by decide)⟩

/-- C6: whenever the action dispatches to a remote call, a failed remote
call makes `handleVMAction` emit an error toast whose description is the
server-supplied `response.data.message` (JS `||` fallback to the generic
`Failed to <action> VM.` phrase) and re-throw that same failure to the
caller, while a successful remote call returns the raw response. -/
theorem handleVMAction_outcome (vmId action instanceOs employeeId : String)
    (remote : RemoteCall → Except ErrVal VMResponse) (c : RemoteCall)
    (hc : dispatchCall action instanceOs employeeId = some c) :
    (∀ e, remote c = .error e →
      (handleVMAction vmId action instanceOs employeeId remote).outcome =
        .error e ∧
      (handleVMAction vmId action instanceOs employeeId remote).toasts =
        [⟨true, "VM " ++ action ++ " Failed",
          jsOrString e.responseDataMessage
            ("Failed to " ++ jsToLowerCase action ++ " VM.")⟩]) ∧
    (∀ resp, remote c = .ok resp →
      (handleVMAction vmId action instanceOs employeeId remote).outcome =
        .ok resp) := by
  unfold handleVMAction
  simp only [hc]
  constructor
  · intro e he
    simp only [he]
    constructor <;> trivial
  · intro resp hresp
    simp only [hresp]

/-- Witness for C6: a failing `stopVM` call with a server-supplied
message is toasted with that message and the failure is re-thrown. -/
theorem handleVMAction_outcome_witness :
    dispatchCall "stop" "Windows" "emp-001" =
      some (RemoteCall.stopVM "Windows" "emp-001") ∧
    ((handleVMAction "vm-001" "stop" "Windows" "emp-001"
        (fun _ => .error ⟨"Request failed", some "maintenance window"⟩)).outcome =
       .error ⟨"Request failed", some "maintenance window"⟩ ∧
     (handleVMAction "vm-001" "stop" "Windows" "emp-001"
        (fun _ => .error ⟨"Request failed", some "maintenance window"⟩)).toasts =
       [⟨true, "VM stop Failed",
         jsOrString (some "maintenance window") ("Failed to " ++ jsToLowerCase "stop" ++ " VM.")⟩]) :=
  ⟨by decide,
   (handleVMAction_outcome "vm-001" "stop" "Windows" "emp-001"
       (fun _ => .error ⟨"Request failed", some "maintenance window"⟩)
       (RemoteCall.stopVM "Windows" "emp-001") (by decide)).1
     ⟨"Request failed", some "maintenance window"⟩ rfl⟩

/-- C2: in single-user mode the loader overlays the per-OS statuses
onto the mock entries and zeroes resources/uptime of an entry whose
resulting status is Stopped; for `{windows: "Stopped", linux:
"Running"}` it returns the Windows entry with zeroed cpu/memory/network
(disk kept) and uptime "0h 0m", and the Linux entry with status
Running. -/
theorem loadUserVMs_single_overlay (now : Int) (rng : Nat → RandDraws)
    (empId : String) :
    (∀ state resp,
      (loadUserVMs now rng state (.single empId (.ok resp))).1 =
        .ok (state.map (overlayVM resp))) ∧
    (loadUserVMs now rng mockVMs
        (.single empId (.ok ⟨"Stopped", "Running"⟩))).1 =
      .ok [{ mockWindowsVM with
               status := "Stopped"
               resources := ⟨0, 0, 30, 0⟩
               uptime := "0h 0m" },
           { mockLinuxVM with status := "Running" }] :=
  ⟨fun _ _ => rfl, rfl⟩

/-- C3: in all-VMs mode the loader returns the mapped list when the
response has shape `{vms: Array}`; a malformed shape or a request
failure returns the current contents of the built-in mock dataset (the
two mock entries, from the initial state) as a normal value — never as
an exception to the caller. -/
theorem loadUserVMs_all_fallback (now : Int) (rng : Nat → RandDraws)
    (state : List VirtualMachine) (vms : List ApiVM) (e : ErrVal) :
    (loadUserVMs now rng state (.all (.wellFormed vms))).1 =
      .ok (vms.mapIdx fun i vm => convertApiVMToAppFormat now (rng i) vm) ∧
    (loadUserVMs now rng state (.all .malformed)).1 = .ok state ∧
    (loadUserVMs now rng state (.all (.failure e))).1 = .ok state ∧
    (loadUserVMs now rng mockVMs (.all .malformed)).1 =
      .ok [mockWindowsVM, mockLinuxVM] ∧
    (loadUserVMs now rng mockVMs (.all (.failure e))).1 =
      .ok [mockWindowsVM, mockLinuxVM] :=
  ⟨rfl, rfl, rfl, rfl, rfl⟩

/-- C7: the mapper computes a wall-clock uptime only for records whose
status is (case-insensitively) running — formatted from the delta
between now and updated_at — and the fixed string "0h 0m" otherwise;
a delta of 2h 5m (7,500,000 ms) formats as "2h 5m". -/
theorem convertApiVM_uptime_spec (apiVM : ApiVM) (now : Int) (r : RandDraws) :
    (jsToLowerCase apiVM.status ≠ "running" →
      (convertApiVMToAppFormat now r apiVM).uptime = "0h 0m") ∧
    (jsToLowerCase apiVM.status = "running" →
      (convertApiVMToAppFormat now r apiVM).uptime =
        jsUptimeString (now - apiVM.updated_at)) ∧
    (jsToLowerCase apiVM.status = "running" →
      now - apiVM.updated_at = 7500000 →
      (convertApiVMToAppFormat now r apiVM).uptime = "2h 5m") := by
  refine ⟨fun h => ?_, fun h => ?_, fun h hd => ?_⟩
  · show jsUptimeString
      (if jsToLowerCase apiVM.status = "running" then now - apiVM.updated_at else 0) = "0h 0m"
    rw [if_neg h]
    decide
  · show jsUptimeString
      (if jsToLowerCase apiVM.status = "running" then now - apiVM.updated_at else 0) =
        jsUptimeString (now - apiVM.updated_at)
    rw [if_pos h]
  · show jsUptimeString
      (if jsToLowerCase apiVM.status = "running" then now - apiVM.updated_at else 0) = "2h 5m"
    rw [if_pos h, hd]
    decide

/-- Witness for C7: a stopped record gets uptime "0h 0m"; a running
record whose updated_at is 2h 5m before now gets uptime "2h 5m". -/
theorem convertApiVM_uptime_spec_witness :
    (jsToLowerCase "Stopped" ≠ "running" ∧
      (convertApiVMToAppFormat 7500000 ⟨0, 0, 0, 0⟩
        ⟨1, none, "Linux", "emp-002", "Stopped", 0, none, none, none, none⟩).uptime =
        "0h 0m") ∧
    (jsToLowerCase "Running" = "running" ∧ (7500000 : Int) - 0 = 7500000 ∧
      (convertApiVMToAppFormat 7500000 ⟨0, 0, 0, 0⟩
        ⟨1, none, "Windows", "emp-001", "Running", 0, none, none, none, none⟩).uptime =
        "2h 5m") :=
  ⟨⟨by decide,
    (convertApiVM_uptime_spec
        ⟨1, none, "Linux", "emp-002", "Stopped", 0, none, none, none, none⟩
        7500000 ⟨0, 0, 0, 0⟩).1 (by decide)⟩,
   ⟨by decide, by decide,
    (convertApiVM_uptime_spec
        ⟨1, none, "Windows", "emp-001", "Running", 0, none, none, none, none⟩
        7500000 ⟨0, 0, 0, 0⟩).2.2 (by decide) (by decide)⟩⟩

/-- C8: for draws in `[0,1)`, a running record gets cpu in `[20,80)`,
memory in `[30,80)` and network in `[5,45)`; a non-running record gets
cpu = memory = network = 0; disk is always in `[10,50)`. -/
theorem convertApiVM_resources_spec (apiVM : ApiVM) (now : Int) (r : RandDraws)
    (hcpu : 0 ≤ r.cpu ∧ r.cpu < 1) (hmem : 0 ≤ r.memory ∧ r.memory < 1)
    (hdisk : 0 ≤ r.disk ∧ r.disk < 1) (hnet : 0 ≤ r.network ∧ r.network < 1) :
    (jsToLowerCase apiVM.status = "running" →
      (20 ≤ (convertApiVMToAppFormat now r apiVM).resources.cpu ∧
        (convertApiVMToAppFormat now r apiVM).resources.cpu < 80) ∧
      (30 ≤ (convertApiVMToAppFormat now r apiVM).resources.memory ∧
        (convertApiVMToAppFormat now r apiVM).resources.memory < 80) ∧
      (5 ≤ (convertApiVMToAppFormat now r apiVM).resources.network ∧
        (convertApiVMToAppFormat now r apiVM).resources.network < 45)) ∧
    (jsToLowerCase apiVM.status ≠ "running" →
      (convertApiVMToAppFormat now r apiVM).resources.cpu = 0 ∧
      (convertApiVMToAppFormat now r apiVM).resources.memory = 0 ∧
      (convertApiVMToAppFormat now r apiVM).resources.network = 0) ∧
    (10 ≤ (convertApiVMToAppFormat now r apiVM).resources.disk ∧
      (convertApiVMToAppFormat now r apiVM).resources.disk < 50) := by
  have hc := jsRandomBand r.cpu 60 (by norm_num) hcpu.1 hcpu.2
  have hm := jsRandomBand r.memory 50 (by norm_num) hmem.1 hmem.2
  have hdk := jsRandomBand r.disk 40 (by norm_num) hdisk.1 hdisk.2
  have hn := jsRandomBand r.network 40 (by norm_num) hnet.1 hnet.2
  push_cast at hc hm hdk hn
  refine ⟨fun h => ?_, fun h => ?_, ?_⟩
  · show (20 ≤ (if jsToLowerCase apiVM.status = "running"
          then Rat.floor (r.cpu * 60) + 20 else 0) ∧
        (if jsToLowerCase apiVM.status = "running"
          then Rat.floor (r.cpu * 60) + 20 else 0) < 80) ∧
      (30 ≤ (if jsToLowerCase apiVM.status = "running"
          then Rat.floor (r.memory * 50) + 30 else 0) ∧
        (if jsToLowerCase apiVM.status = "running"
          then Rat.floor (r.memory * 50) + 30 else 0) < 80) ∧
      (5 ≤ (if jsToLowerCase apiVM.status = "running"
          then Rat.floor (r.network * 40) + 5 else 0) ∧
        (if jsToLowerCase apiVM.status = "running"
          then Rat.floor (r.network * 40) + 5 else 0) < 45)
    rw [if_pos h]
    refine ⟨⟨by linarith [hc.1], by linarith [hc.2]⟩, ?_, ?_⟩
    · rw [if_pos h]
      exact ⟨by linarith [hm.1], by linarith [hm.2]⟩
    · rw [if_pos h]
      exact ⟨by linarith [hn.1], by linarith [hn.2]⟩
  · show (if jsToLowerCase apiVM.status = "running"
          then Rat.floor (r.cpu * 60) + 20 else 0) = 0 ∧
      (if jsToLowerCase apiVM.status = "running"
          then Rat.floor (r.memory * 50) + 30 else 0) = 0 ∧
      (if jsToLowerCase apiVM.status = "running"
          then Rat.floor (r.network * 40) + 5 else 0) = 0
    rw [if_neg h]
    refine ⟨rfl, ?_, ?_⟩
    · rw [if_neg h]
    · rw [if_neg h]
  · show 10 ≤ Rat.floor (r.disk * 40) + 10 ∧ Rat.floor (r.disk * 40) + 10 < 50
    exact ⟨by linarith [hdk.1], by linarith [hdk.2]⟩

/-- Witness for C8: zero draws on a running record give cpu 20,
memory 30, network 5, disk 10, all inside the claimed bands; the
hypotheses 0 ≤ 0 < 1 hold for each draw. -/
theorem convertApiVM_resources_spec_witness :
    ((0 : ℚ) ≤ 0 ∧ (0 : ℚ) < 1) ∧
    (jsToLowerCase "Running" = "running" ∧
      ((20 ≤ (convertApiVMToAppFormat 0 ⟨0, 0, 0, 0⟩
          ⟨1, none, "Windows", "emp-001", "Running", 0, none, none, none, none⟩).resources.cpu ∧
        (convertApiVMToAppFormat 0 ⟨0, 0, 0, 0⟩
          ⟨1, none, "Windows", "emp-001", "Running", 0, none, none, none, none⟩).resources.cpu < 80) ∧
       (30 ≤ (convertApiVMToAppFormat 0 ⟨0, 0, 0, 0⟩
          ⟨1, none, "Windows", "emp-001", "Running", 0, none, none, none, none⟩).resources.memory ∧
        (convertApiVMToAppFormat 0 ⟨0, 0, 0, 0⟩
          ⟨1, none, "Windows", "emp-001", "Running", 0, none, none, none, none⟩).resources.memory < 80) ∧
       (5 ≤ (convertApiVMToAppFormat 0 ⟨0, 0, 0, 0⟩
          ⟨1, none, "Windows", "emp-001", "Running", 0, none, none, none, none⟩).resources.network ∧
        (convertApiVMToAppFormat 0 ⟨0, 0, 0, 0⟩
          ⟨1, none, "Windows", "emp-001", "Running", 0, none, none, none, none⟩).resources.network < 45)) ∧
      (10 ≤ (convertApiVMToAppFormat 0 ⟨0, 0, 0, 0⟩
          ⟨1, none, "Windows", "emp-001", "Running", 0, none, none, none, none⟩).resources.disk ∧
        (convertApiVMToAppFormat 0 ⟨0, 0, 0, 0⟩
          ⟨1, none, "Windows", "emp-001", "Running", 0, none, none, none, none⟩).resources.disk < 50)) :=
  ⟨⟨le_refl 0, zero_lt_one⟩,
   by decide,
   (convertApiVM_resources_spec
        ⟨1, none, "Windows", "emp-001", "Running", 0, none, none, none, none⟩ 0 ⟨0, 0, 0, 0⟩
        ⟨le_refl 0, zero_lt_one⟩ ⟨le_refl 0, zero_lt_one⟩
        ⟨le_refl 0, zero_lt_one⟩ ⟨le_refl 0, zero_lt_one⟩).1 (by decide),
   (convertApiVM_resources_spec
        ⟨1, none, "Windows", "emp-001", "Running", 0, none, none, none, none⟩ 0 ⟨0, 0, 0, 0⟩
        ⟨le_refl 0, zero_lt_one⟩ ⟨le_refl 0, zero_lt_one⟩
        ⟨le_refl 0, zero_lt_one⟩ ⟨le_refl 0, zero_lt_one⟩).2.2⟩

/-- C9: a single-user load writes the overlaid entries back into the
module-level mock array (the returned list and the new array contents
are the same), so the changes persist: a later all-VMs call that falls
back to the mock array returns the previously overlaid values, which
differ from the original static data. -/
theorem mockVMs_mutation_persists (now : Int) (rng : Nat → RandDraws) :
    (∀ state empId resp,
      loadUserVMs now rng state (.single empId (.ok resp)) =
        (.ok (state.map (overlayVM resp)), state.map (overlayVM resp))) ∧
    ((loadUserVMs now rng mockVMs
        (.single "emp-001" (.ok ⟨"Stopped", "Running"⟩))).2 =
      [{ mockWindowsVM with
           status := "Stopped"
           resources := ⟨0, 0, 30, 0⟩
           uptime := "0h 0m" },
       { mockLinuxVM with status := "Running" }] ∧
     (loadUserVMs now rng
        [{ mockWindowsVM with
             status := "Stopped"
             resources := ⟨0, 0, 30, 0⟩
             uptime := "0h 0m" },
         { mockLinuxVM with status := "Running" }]
        (.all (.failure ⟨"network error", none⟩))).1 =
      .ok [{ mockWindowsVM with
               status := "Stopped"
               resources := ⟨0, 0, 30, 0⟩
               uptime := "0h 0m" },
           { mockLinuxVM with status := "Running" }] ∧
     [{ mockWindowsVM with
          status := "Stopped"
          resources := ⟨0, 0, 30, 0⟩
          uptime := "0h 0m" },
      { mockLinuxVM with status := "Running" }] ≠ mockVMs) :=
  ⟨fun _ _ _ => rfl, rfl, rfl, by decide⟩

/-- C10: single-user mode copies the response status strings into the
returned entries verbatim (no normalization): the overlaid status field
equals the raw response string, the zeroing branch fires only when that
string is exactly "Stopped", and a lowercase "stopped"/"running"
response is returned unchanged — leaving the status outside the
six-value VMStatus set. -/
theorem loadUserVMs_single_verbatim_status (resp : StatusResponse)
    (vm : VirtualMachine) (now : Int) (rng : Nat → RandDraws)
    (empId : String) :
    (jsToLowerCase vm.os = "windows" →
      (overlayVM resp vm).status = resp.windows) ∧
    (jsToLowerCase vm.os = "windows" → resp.windows ≠ "Stopped" →
      overlayVM resp vm = { vm with status := resp.windows }) ∧
    ((loadUserVMs now rng mockVMs
        (.single empId (.ok ⟨"stopped", "running"⟩))).1 =
      .ok [{ mockWindowsVM with status := "stopped" },
           { mockLinuxVM with status := "running" }] ∧
     "stopped" ∉ vmStatusValues) := by
  refine ⟨fun h => ?_, fun h hne => ?_, rfl, by decide⟩
  · unfold overlayVM
    simp only [h, reduceIte]
    split <;> rfl
  · unfold overlayVM
    simp only [h, reduceIte]
    rw [if_neg]
    exact hne

/-- Witness for C10: the mock Windows entry with a lowercase "stopped"
response keeps its resources and uptime and carries the raw string. -/
theorem loadUserVMs_single_verbatim_status_witness :
    jsToLowerCase "Windows" = "windows" ∧ ("stopped" : String) ≠ "Stopped" ∧
    overlayVM ⟨"stopped", "running"⟩ mockWindowsVM =
      { mockWindowsVM with status := "stopped" } :=
  ⟨by decide, by decide,
   (loadUserVMs_single_verbatim_status ⟨"stopped", "running"⟩ mockWindowsVM
       0 (fun _ => ⟨0, 0, 0, 0⟩) "emp-001").2.1 (by decide) (by decide)⟩
